import Mathlib

/-!
Shallow embedding of the MCP_end_to_end command-line assistant
(ask_claude.py, claude_mcp_client.py, mcp_integration.py).

Network effects are made explicit: every outbound interaction of the code
(health probe, tool-call POST, search GET, retry sleep) is recorded as a
`NetEvent`, and the behaviour of each collaborator (the search provider,
the MCP server transport, the LLM) is an oracle parameter.  Python dict
payloads are embedded as tagged types whose constructors mirror the shapes
the code actually reads with `.get`.
-/

set_option maxHeartbeats 1000000

/-- Roles of conversation turns kept in `conversation_history`. -/
inductive Role where
  | user
  | assistant
deriving DecidableEq, Repr

/-- The opposite role, used to state strict alternation. -/
def Role.flip : Role → Role
  | .user => .assistant
  | .assistant => .user

/-- A conversation turn: `{"role": ..., "content": ...}` with the content
rendered to its text (assistant turns in the source carry one text block). -/
structure Turn where
  role : Role
  text : String
deriving DecidableEq, Repr

/-- A search result produced by the Search Gateway
(`WebResult` dataclass in mcp_integration.py). -/
structure WebResult where
  title : String
  url : String
  description : String
deriving DecidableEq, Repr

/-- Body of a DuckDuckGo response as the code reads it:
either not decodable as JSON, or a dict from which the code reads the
optional string fields `Abstract`, `Heading`, `AbstractURL`. -/
inductive DDGBody where
  | malformed
  | fields (abstract heading abstractURL : Option String)
deriving DecidableEq, Repr

/-- Outcome of one outbound HTTP exchange: either the request raised a
transport error (timeout, connection error), or it completed with a status
code and a body. -/
inductive HTTPOutcome (β : Type) where
  | transportError
  | response (status : Nat) (body : β)
deriving DecidableEq, Repr

/-- `requests.Response.raise_for_status` raises exactly when
`400 <= status_code < 600`. -/
def httpError (status : Nat) : Bool :=
  decide (400 ≤ status) && decide (status < 600)

/-- `MCPClient.search` (mcp_integration.py lines 37-60): one GET to the
DuckDuckGo endpoint; any raised exception (transport error,
`raise_for_status` on a 4xx/5xx, JSON decode failure) is caught and turned
into the empty list; on success at most one result is built, and only when
`data.get("Abstract")` is truthy (a non-empty string).  The `count`
argument is accepted but never used, as in the source. -/
def MCPClient.search (query : String) (count : Nat) (out : HTTPOutcome DDGBody) :
    List WebResult :=
  match out with
  | .transportError => []
  | .response status body =>
    if httpError status then []
    else
      match body with
      | .malformed => []
      | .fields abstract heading abstractURL =>
        match abstract with
        | none => []
        | some a =>
          if a = "" then []
          else [{ title := heading.getD "", url := abstractURL.getD "", description := a }]

/-- Written from the spec's words for the Search Gateway contract (§4.1, C4):
zero results on a transport failure, a non-successful status, a malformed
body, or a missing/empty Abstract; exactly one result when the provider
supplies a non-empty Abstract. -/
def specSearchCount : HTTPOutcome DDGBody → Nat
  | .transportError => 0
  | .response status body =>
    if httpError status then 0
    else
      match body with
      | .malformed => 0
      | .fields abstract _ _ =>
        match abstract with
        | none => 0
        | some a => if a = "" then 0 else 1

/-- Parameters of a tool invocation; `query` is `none` when the key is
missing or holds the falsy `{}` default the orchestrator substitutes. -/
structure ToolParams where
  query : Option String
deriving DecidableEq, Repr

/-- Python truthiness of the `query` parameter value. -/
def queryTruthy : Option String → Bool
  | none => false
  | some s => decide (s ≠ "")

/-- The JSON payload returned over the tool-call boundary:
`{"results": [...]}` or `{"error": ...}`. -/
inductive ToolResponse where
  | results (rs : List WebResult)
  | error (msg : String)
deriving DecidableEq, Repr

/-- Network events performed by the dispatch path, in order. -/
inductive NetEvent where
  | healthProbe
  | toolCallPost (name : String) (params : ToolParams)
  | searchCall (query : String)
  | sleep (seconds : Nat)
deriving DecidableEq, Repr

/-- `handle_claude_tool_call` (mcp_integration.py lines 110-120): reads
`query` with default `""`, returns `{"error": "no query"}` when it is
falsy, otherwise calls `MCPClient.search` (count left at its default 10)
and wraps the results.  Also returns the network events it performs. -/
def handle_claude_tool_call (searchOut : HTTPOutcome DDGBody) (p : ToolParams) :
    ToolResponse × List NetEvent :=
  match p.query with
  | none => (.error "no query", [])
  | some q =>
    if q = "" then (.error "no query", [])
    else (.results (MCPClient.search q 10 searchOut), [.searchCall q])

/-- Outcome of one POST to `/tool_call` as seen by the client:
a raised transport exception, or a completed exchange with a status code
and a (well-formed) JSON body. -/
inductive ToolCallOutcome where
  | transportFail
  | response (status : Nat) (body : ToolResponse)
deriving DecidableEq, Repr

/-- `max_retries` in `ClaudeClient._handle_tool_call`. -/
def maxRetries : Nat := 3

/-- The retry loop of `ClaudeClient._handle_tool_call`
(claude_mcp_client.py lines 148-170): while `retry_count < max_retries`,
POST to `/tool_call`; a 2xx/3xx exchange returns its body; any
`requests.exceptions.RequestException` — a raised transport error or the
`HTTPError` from `raise_for_status` on a 4xx/5xx — increments the counter,
sleeps `2 ^ retry_count` if attempts remain, and otherwise returns
`{"error": "MCP server not responding after retries"}`.  The fuel argument
is `max_retries - retry_count`; the fuel-0 case is the dead
`return {"error": "Unknown error in _handle_tool_call"}` after the loop. -/
def attemptLoop (att : Nat → ToolCallOutcome) (name : String) (p : ToolParams) :
    Nat → Nat → ToolResponse × List NetEvent
  | _, 0 => (.error "Unknown error in _handle_tool_call", [])
  | retryCount, fuel+1 =>
    let onFail : ToolResponse × List NetEvent :=
      let rc := retryCount + 1
      if rc < maxRetries then
        let rec_ := attemptLoop att name p rc fuel
        (rec_.1, .toolCallPost name p :: .sleep (2 ^ rc) :: rec_.2)
      else
        (.error "MCP server not responding after retries", [.toolCallPost name p])
    match att retryCount with
    | .response status body =>
      if httpError status then onFail else (body, [.toolCallPost name p])
    | .transportFail => onFail

/-- `ClaudeClient._handle_tool_call` (claude_mcp_client.py lines 141-170):
first a health probe (`_check_mcp_server`, whose boolean outcome covers
both a non-200 status and a raised exception); when it fails, return
`{"error": "MCP server not available"}` without attempting the call;
otherwise run the retry loop starting at `retry_count = 0`. -/
def ClaudeClient.handle_tool_call (healthy : Bool) (att : Nat → ToolCallOutcome)
    (name : String) (p : ToolParams) : ToolResponse × List NetEvent :=
  if healthy then
    let body := attemptLoop att name p 0 maxRetries
    (body.1, .healthProbe :: body.2)
  else
    (.error "MCP server not available", [.healthProbe])

/-- Modelled from the spec: the MCP server process that exposes
`GET /health` and `POST /tool_call` (spec §6) is not among the three
source files; per the spec the POST route returns the tool handler's
response `{results: ...}` or `{error: ...}`.  This composes the in-source
client retry loop with the in-source handler through that modelled route:
when the server is reachable, the single POST completes with a success
status carrying `handle_claude_tool_call`'s response, and the server-side
events happen during that exchange. -/
def fullDispatch (healthy : Bool) (searchOut : HTTPOutcome DDGBody)
    (name : String) (p : ToolParams) : ToolResponse × List NetEvent :=
  if healthy then
    let srv := handle_claude_tool_call searchOut p
    (srv.1, .healthProbe :: .toolCallPost name p :: srv.2)
  else
    (.error "MCP server not available", [.healthProbe])

/-- Number of `/tool_call` POST attempts recorded in an event trace. -/
def countPosts (evs : List NetEvent) : Nat :=
  (evs.filter fun e =>
    match e with
    | .toolCallPost _ _ => true
    | _ => false).length

/-- A content block of an LLM response, tagged by its `type` field:
a `"text"` block carrying its text (missing `text` key embedded as `""`),
a `"tool_use"` block carrying `name` and `input.query` (`none` when the
`query` key is missing, standing for the falsy `{}` default), or a block
of any other type. -/
inductive ContentBlock where
  | text (t : String)
  | toolUse (name : String) (inputQuery : Option String)
  | other
deriving DecidableEq, Repr

/-- Outcome of one POST to the Claude messages endpoint as the `try` block
of `send_message` observes it: `failure` when any exception is raised (a
transport error, the `raise_for_status` on a non-200 status, a JSON decode
failure), `success` with the response dict's optional `content` list
otherwise. -/
inductive ClaudeOutcome where
  | failure (msg : String)
  | success (content : Option (List ContentBlock))
deriving DecidableEq, Repr

/-- The value `send_message` returns: the response dict (whose `content`
key may be absent), the `{"error": msg}` dict built by the `except`
clause (which has no `content` key), or — only when the API key is empty —
the `ValueError` raised before the `try` block. -/
inductive SMResult where
  | response (content : Option (List ContentBlock))
  | error (msg : String)
  | raised (msg : String)
deriving DecidableEq, Repr

/-- Execution trace of `send_message`: the returned value (`none` when the
step budget ran out before the recursion completed), the dispatcher
invocations in order (tool name and query value), and the `messages` list
of each request sent to the LLM. -/
structure Trace where
  result : Option SMResult
  calls : List (String × Option String)
  payloads : List (List Turn)
deriving DecidableEq, Repr

/-- `content_block.get("text", "")`. -/
def blockText : ContentBlock → String
  | .text t => t
  | _ => ""

/-- The first `tool_use` block of a content list, in block order — the one
the `for` loop of `send_message` acts on before returning. -/
def firstToolUse : List ContentBlock → Option (String × Option String)
  | [] => none
  | .toolUse n q :: _ => some (n, q)
  | _ :: bs => firstToolUse bs

/-- The first `text` block of a content list — the one
`get_final_answer`'s loop returns. -/
def firstTextBlock : List ContentBlock → Option String
  | [] => none
  | .text t :: _ => some t
  | _ :: bs => firstTextBlock bs

/-- The fixed summarization instruction sent on the forced follow-up turn
(claude_mcp_client.py line 126). -/
def summarizePrompt : String :=
  "Please summarize the information from the tool call and don\x27t send any more tool calls"

/-- The fixed text inserted between the model's leading text and the tool
result description (claude_mcp_client.py line 116). -/
def toolInfoSep : String :=
  "\n\nThe tool call was successful and here is the information from the tool call: "

/-- `tool_response.get("results")` truthy and non-empty yields
`results[0].get("description", "")`; an error dict or empty results yield
`""` (claude_mcp_client.py lines 102-104). -/
def respDescription : ToolResponse → String
  | .results (r :: _) => r.description
  | _ => ""

/-- `ClaudeClient.send_message` (claude_mcp_client.py lines 49-137),
step-indexed by `fuel` (the number of LLM exchanges still allowed; the
Python recursion has no such cap, which the fuel makes observable).
`oracle idx` is the outcome of the `idx`-th LLM POST; `disp` is the
behaviour of `_handle_tool_call`.  An empty API key raises the
`ValueError` before anything is sent.  On a success outcome whose content
holds a `tool_use` block, the first such block is dispatched, the history
is extended by the restated user message and a synthetic assistant turn
(the first content block's text, the fixed separator, and the first
result's description), and the method recurses with the summarization
prompt; otherwise the response dict is returned as-is. -/
def ClaudeClient.send_message (apiKey : String) (oracle : Nat → ClaudeOutcome)
    (disp : String → Option String → ToolResponse) :
    Nat → Nat → String → List Turn → Trace
  | 0, _, _, _ => { result := none, calls := [], payloads := [] }
  | fuel+1, idx, message, history =>
    if apiKey = "" then
      { result := some (.raised "Claude API key is required"), calls := [], payloads := [] }
    else
      let payload := history ++ [⟨.user, message⟩]
      match oracle idx with
      | .failure msg =>
        { result := some (.error msg), calls := [], payloads := [payload] }
      | .success none =>
        { result := some (.response none), calls := [], payloads := [payload] }
      | .success (some blocks) =>
        match firstToolUse blocks with
        | none =>
          { result := some (.response (some blocks)), calls := [], payloads := [payload] }
        | some (n, q) =>
          let description := respDescription (disp n q)
          let synthText := blockText (blocks.headD .other) ++ toolInfoSep ++ description
          let newHistory := history ++ [⟨.user, message⟩, ⟨.assistant, synthText⟩]
          let rest := ClaudeClient.send_message apiKey oracle disp fuel (idx+1)
            summarizePrompt newHistory
          { result := rest.result
            calls := (n, q) :: rest.calls
            payloads := payload :: rest.payloads }

/-- `ClaudeClient.get_final_answer` (claude_mcp_client.py lines 172-183):
runs `send_message` on the query with no history, returns the first text
block's text of the final response, the sentinel `"No clear answer found"`
when the response has no `content` key or no text block (which includes
the `{"error": ...}` dict), and `"Error: ..."` when `send_message` raised.
`none` means the step budget ran out. -/
def ClaudeClient.get_final_answer (apiKey : String) (oracle : Nat → ClaudeOutcome)
    (disp : String → Option String → ToolResponse) (fuel : Nat) (message : String) :
    Option String :=
  match (ClaudeClient.send_message apiKey oracle disp fuel 0 message []).result with
  | none => none
  | some (.raised m) => some ("Error: " ++ m)
  | some (.error _) => some "No clear answer found"
  | some (.response none) => some "No clear answer found"
  | some (.response (some blocks)) => some ((firstTextBlock blocks).getD "No clear answer found")

/-- An LLM that answers every request, including each forced summarization
request, with a `tool_use` block. -/
def alwaysToolOracle : Nat → ClaudeOutcome :=
  fun _ => .success (some [.toolUse "fetch_web_content" (some "Eiffel Tower height")])

/-- The dispatcher behaviour induced by the client retry loop in a fixed
network environment — ties the orchestrator layer to
`ClaudeClient.handle_tool_call`. -/
def dispatcherOf (healthy : Bool) (att : Nat → ToolCallOutcome) :
    String → Option String → ToolResponse :=
  fun n q => (ClaudeClient.handle_tool_call healthy att n ⟨q⟩).1

/-- Events performed directly by the front end (ask_claude.py). -/
inductive FrontEvent where
  | healthProbe (ok : Bool)
  | orchestratorCall (query : String)
deriving DecidableEq, Repr

/-- Result of `main` in ask_claude.py. -/
inductive MainResult where
  | exitError
  | ranOrchestrator (answer : Option String)
deriving DecidableEq, Repr

/-- `main` of ask_claude.py (lines 30-52): exits with an error when the
`CLAUDE_API_KEY` environment value is empty, otherwise constructs
`ClaudeClient` — whose constructor performs one health probe against the
MCP server and discards its boolean result — and unconditionally calls
`get_final_answer` on the query.  The module-level function
`check_mcp_server` of ask_claude.py is never called by `main`. -/
def AskClaude.main (apiKey : String) (mcpHealthy : Bool)
    (oracle : Nat → ClaudeOutcome) (disp : String → Option String → ToolResponse)
    (fuel : Nat) (query : String) : MainResult × List FrontEvent :=
  if apiKey = "" then
    (.exitError, [])
  else
    (.ranOrchestrator (ClaudeClient.get_final_answer apiKey oracle disp fuel query),
     [.healthProbe mcpHealthy, .orchestratorCall query])

/-- Strict role alternation: the turn list assigns its head the given role
and alternates from there. -/
def altRoles : Role → List Turn → Bool
  | _, [] => true
  | r, t :: ts => decide (t.role = r) && altRoles r.flip ts

/-- The role the turn after a given list would need for the alternation to
continue, starting the list at `r`. -/
def endRole : Role → List Turn → Role
  | r, [] => r
  | r, _ :: ts => endRole r.flip ts

theorem altRoles_append (r : Role) (xs ys : List Turn) :
    altRoles r (xs ++ ys) = (altRoles r xs && altRoles (endRole r xs) ys) := by
  induction xs generalizing r with
  | nil => simp [altRoles, endRole]
  | cons t ts ih => simp [altRoles, endRole, ih, Bool.and_assoc]

theorem endRole_append (r : Role) (xs ys : List Turn) :
    endRole r (xs ++ ys) = endRole (endRole r xs) ys := by
  induction xs generalizing r with
  | nil => rfl
  | cons t ts ih => simp [endRole, ih]

/-- Every payload sent to the LLM extends the history the call started
from by at least the restated user message; in particular the first one is
exactly `history ++ [user message]`. -/
theorem send_message_payloads_head (apiKey : String) (oracle : Nat → ClaudeOutcome)
    (disp : String → Option String → ToolResponse) (fuel idx : Nat) (message : String)
    (history : List Turn) (hk : apiKey ≠ "") :
    (ClaudeClient.send_message apiKey oracle disp (fuel+1) idx message history).payloads.head?
      = some (history ++ [⟨.user, message⟩]) := by
  rw [ClaudeClient.send_message]
  simp only [hk, if_false]
  cases oracle idx with
  | failure msg => rfl
  | success content =>
    cases content with
    | none => rfl
    | some blocks =>
      cases h : firstToolUse blocks with
      | none => simp [h]
      | some nq => cases nq with
        | mk n q => simp [h]

/-- Every request payload of a `send_message` execution whose starting
history is an alternating even-length sequence beginning with a user turn
alternates strictly, beginning with a user turn. -/
theorem send_message_payloads_alternate (apiKey : String) (oracle : Nat → ClaudeOutcome)
    (disp : String → Option String → ToolResponse) :
    ∀ (fuel idx : Nat) (message : String) (history : List Turn),
      altRoles .user history = true → endRole .user history = .user →
      ∀ p ∈ (ClaudeClient.send_message apiKey oracle disp fuel idx message history).payloads,
        altRoles .user p = true := by
  intro fuel
  induction fuel with
  | zero =>
    intro idx message history _ _ p hp
    simp [ClaudeClient.send_message] at hp
  | succ fuel ih =>
    intro idx message history halt hend p hp
    have hpay : altRoles Role.user (history ++ [⟨.user, message⟩]) = true := by
      rw [altRoles_append, halt, hend]
      simp [altRoles, Role.flip]
    rw [ClaudeClient.send_message] at hp
    by_cases hk : apiKey = ""
    · simp [hk] at hp
    · simp only [hk, if_false] at hp
      cases ho : oracle idx with
      | failure msg =>
        rw [ho] at hp
        simp at hp
        exact hp ▸ hpay
      | success content =>
        rw [ho] at hp
        cases content with
        | none =>
          simp at hp
          exact hp ▸ hpay
        | some blocks =>
          cases hf : firstToolUse blocks with
          | none =>
            simp [hf] at hp
            exact hp ▸ hpay
          | some nq =>
            cases nq with
            | mk n q =>
              simp only [hf, List.mem_cons] at hp
              rcases hp with hp | hp
              · exact hp ▸ hpay
              · refine ih (idx+1) summarizePrompt _ ?_ ?_ p hp
                · rw [altRoles_append, halt, hend]
                  simp [altRoles, Role.flip]
                · rw [endRole_append, hend]
                  simp [endRole, Role.flip]

theorem countPosts_probe (evs : List NetEvent) :
    countPosts (.healthProbe :: evs) = countPosts evs := by
  simp [countPosts]

theorem countPosts_post (n : String) (p : ToolParams) (evs : List NetEvent) :
    countPosts (.toolCallPost n p :: evs) = countPosts evs + 1 := by
  simp [countPosts, List.filter]

theorem countPosts_sleep (t : Nat) (evs : List NetEvent) :
    countPosts (.sleep t :: evs) = countPosts evs := by
  simp [countPosts]

/-- Every iteration of the retry loop that runs performs its POST, so once
an attempt fails with attempts remaining, at least two POSTs happen. -/
theorem attemptLoop_posts_pos (att : Nat → ToolCallOutcome) (name : String)
    (p : ToolParams) (rc : Nat) : ∀ fuel : Nat, 0 < fuel →
    1 ≤ countPosts (attemptLoop att name p rc fuel).2 := by
  intro fuel hf
  cases fuel with
  | zero => omega
  | succ fuel =>
    rw [attemptLoop]
    cases att rc with
    | transportFail =>
      by_cases h : rc + 1 < maxRetries <;> simp [h, countPosts, List.filter]
    | response status body =>
      by_cases he : httpError status
      · by_cases h : rc + 1 < maxRetries <;> simp [he, h, countPosts, List.filter]
      · simp [he, countPosts, List.filter]

/-- Claim C4: for every query and every limit value, the Search Gateway's
search returns an empty sequence on a non-successful HTTP status or
malformed response body (the catch-all in the source means it never raises
to its caller, which the totality of the embedding reflects), and on
success it returns at most one result — exactly one when the provider
supplies a non-empty Abstract, zero otherwise — regardless of the
limit/count argument. -/
theorem C4_search_at_most_one (q : String) (c c2 : Nat) (out : HTTPOutcome DDGBody) :
    (MCPClient.search q c out).length = specSearchCount out ∧
    (MCPClient.search q c out).length ≤ 1 ∧
    MCPClient.search q c out = MCPClient.search q c2 out := by
  refine ⟨?_, ?_, ?_⟩ <;>
  · cases out with
    | transportError => simp [MCPClient.search, specSearchCount]
    | response status body =>
      cases body with
      | malformed =>
        by_cases he : httpError status <;> simp [MCPClient.search, specSearchCount, he]
      | fields a h u =>
        cases a with
        | none =>
          by_cases he : httpError status <;> simp [MCPClient.search, specSearchCount, he]
        | some s =>
          by_cases he : httpError status <;> by_cases hs : s = "" <;>
            simp [MCPClient.search, specSearchCount, he, hs]

/-- Claim C1, counterexample: dispatching the invocation
`{name: "fetch_web_content", parameters: {query: ""}}` against a reachable
service does return `{error: "no query"}`, but the claim's "no network
call of any kind" is false — the client performs the health probe and the
`/tool_call` POST before the server-side handler ever inspects the query,
so the event trace is non-empty. -/
theorem C1_counterexample :
    fullDispatch true .transportError "fetch_web_content" ⟨some ""⟩
      = (.error "no query",
         [.healthProbe, .toolCallPost "fetch_web_content" ⟨some ""⟩]) ∧
    (fullDispatch true .transportError "fetch_web_content" ⟨some ""⟩).2 ≠ [] := by
  exact ⟨rfl, by decide⟩

/-- Claim C1, amended: for every invocation whose parameters hold an empty
(or missing) query, dispatch through a reachable service returns
`{error: "no query"}` and the search provider is never called, but the
health probe and exactly one `/tool_call` POST are performed, because the
emptiness check happens in the server-side handler after those calls. -/
theorem C1_empty_query (searchOut : HTTPOutcome DDGBody) (name : String)
    (p : ToolParams) (h : queryTruthy p.query = false) :
    fullDispatch true searchOut name p
      = (.error "no query", [.healthProbe, .toolCallPost name p]) ∧
    ∀ q, NetEvent.searchCall q ∉ (fullDispatch true searchOut name p).2 := by
  have hh : handle_claude_tool_call searchOut p = (.error "no query", []) := by
    cases hq : p.query with
    | none => simp [handle_claude_tool_call, hq]
    | some s =>
      have hs : s = "" := by simpa [queryTruthy, hq] using h
      simp [handle_claude_tool_call, hq, hs]
  refine ⟨by simp [fullDispatch, hh], fun q => ?_⟩
  simp [fullDispatch, hh]

/-- Claim C1, witness for the amended statement at the invocation whose
query parameter carries the falsy `{}` default. -/
theorem C1_empty_query_witness :
    fullDispatch true (.response 200 .malformed) "fetch_web_content" ⟨none⟩
      = (.error "no query",
         [.healthProbe, .toolCallPost "fetch_web_content" ⟨none⟩]) ∧
    ∀ q, NetEvent.searchCall q ∉
      (fullDispatch true (.response 200 .malformed) "fetch_web_content" ⟨none⟩).2 :=
  C1_empty_query (.response 200 .malformed) "fetch_web_content" ⟨none⟩ (by decide)

/-- Claim C2, counterexample: when all three attempts fail transiently the
dispatcher does give up, but the error payload is the source's
`{"error": "MCP server not responding after retries"}`, not the claimed
`{error: "service not responding after retries"}`. -/
theorem C2_counterexample :
    (ClaudeClient.handle_tool_call true (fun _ => .transportFail)
        "fetch_web_content" ⟨some "Eiffel Tower height"⟩).1
      = .error "MCP server not responding after retries" ∧
    (ClaudeClient.handle_tool_call true (fun _ => .transportFail)
        "fetch_web_content" ⟨some "Eiffel Tower height"⟩).1
      ≠ .error "service not responding after retries" := by
  exact ⟨rfl, by decide⟩

/-- Claim C2, amended: with a reachable service, transient transport
failures on attempts 1 and 2 followed by a completed success-status
exchange on attempt 3 make dispatch return that response's body after
exactly three POST attempts with sleeps of 2 then 4 seconds between them;
when all three attempts fail transiently, the same three attempts and
sleeps happen and dispatch returns
`{error: "MCP server not responding after retries"}`. -/
theorem C2_retry_schedule (name : String) (p : ToolParams) (rs : List WebResult)
    (att attF : Nat → ToolCallOutcome)
    (h0 : att 0 = .transportFail) (h1 : att 1 = .transportFail)
    (h2 : att 2 = .response 200 (.results rs))
    (hF : ∀ i, attF i = .transportFail) :
    ClaudeClient.handle_tool_call true att name p
      = (.results rs,
         [.healthProbe, .toolCallPost name p, .sleep 2,
          .toolCallPost name p, .sleep 4, .toolCallPost name p]) ∧
    ClaudeClient.handle_tool_call true attF name p
      = (.error "MCP server not responding after retries",
         [.healthProbe, .toolCallPost name p, .sleep 2,
          .toolCallPost name p, .sleep 4, .toolCallPost name p]) := by
  constructor
  · simp [ClaudeClient.handle_tool_call, attemptLoop, maxRetries, h0, h1, h2, httpError]
  · simp [ClaudeClient.handle_tool_call, attemptLoop, maxRetries, hF]

/-- Claim C2, witness for the amended statement: the two concrete attempt
schedules, one succeeding on the third attempt with a single result, one
failing throughout. -/
theorem C2_retry_schedule_witness :
    ClaudeClient.handle_tool_call true
        (fun i => if i < 2 then .transportFail
                  else .response 200 (.results [⟨"Eiffel Tower", "u", "330 m"⟩]))
        "fetch_web_content" ⟨some "Eiffel Tower height"⟩
      = (.results [⟨"Eiffel Tower", "u", "330 m"⟩],
         [.healthProbe, .toolCallPost "fetch_web_content" ⟨some "Eiffel Tower height"⟩,
          .sleep 2, .toolCallPost "fetch_web_content" ⟨some "Eiffel Tower height"⟩,
          .sleep 4, .toolCallPost "fetch_web_content" ⟨some "Eiffel Tower height"⟩]) ∧
    ClaudeClient.handle_tool_call true (fun _ => .transportFail)
        "fetch_web_content" ⟨some "Eiffel Tower height"⟩
      = (.error "MCP server not responding after retries",
         [.healthProbe, .toolCallPost "fetch_web_content" ⟨some "Eiffel Tower height"⟩,
          .sleep 2, .toolCallPost "fetch_web_content" ⟨some "Eiffel Tower height"⟩,
          .sleep 4, .toolCallPost "fetch_web_content" ⟨some "Eiffel Tower height"⟩]) :=
  C2_retry_schedule "fetch_web_content" ⟨some "Eiffel Tower height"⟩
    [⟨"Eiffel Tower", "u", "330 m"⟩]
    (fun i => if i < 2 then .transportFail
              else .response 200 (.results [⟨"Eiffel Tower", "u", "330 m"⟩]))
    (fun _ => .transportFail) rfl rfl rfl (fun _ => rfl)

/-- Claim C3, counterexample: a completed HTTP exchange with status 500
carrying a well-formed error body is retried — in fact all three attempts
are spent on such exchanges (3 POSTs, not the single POST the claim's
"never retries on well-formed error responses" would give), because
`raise_for_status` raises an `HTTPError`, which is a
`requests.exceptions.RequestException` and so caught by the retry clause. -/
theorem C3_counterexample :
    countPosts (ClaudeClient.handle_tool_call true
        (fun _ => .response 500 (.error "internal failure"))
        "fetch_web_content" ⟨some "x"⟩).2 = 3 ∧
    1 < countPosts (ClaudeClient.handle_tool_call true
        (fun _ => .response 500 (.error "internal failure"))
        "fetch_web_content" ⟨some "x"⟩).2 ∧
    (ClaudeClient.handle_tool_call true
        (fun _ => .response 500 (.error "internal failure"))
        "fetch_web_content" ⟨some "x"⟩).1
      = .error "MCP server not responding after retries" := by
  exact ⟨rfl, by decide, rfl⟩

/-- Claim C3, amended: dispatch retries a failed attempt both on transient
transport failures and on completed exchanges whose status is in the
4xx/5xx range (their `HTTPError` is a `RequestException`); only a
completed exchange with a success status is returned without retry — and
its body is returned as-is even when it is a well-formed `{error: ...}`
object delivered with status 200. -/
theorem C3_retry_condition (att : Nat → ToolCallOutcome) (name : String)
    (p : ToolParams) (s : Nat) (b : ToolResponse) :
    (att 0 = .response s b → httpError s = false →
       ClaudeClient.handle_tool_call true att name p
         = (b, [.healthProbe, .toolCallPost name p])) ∧
    (att 0 = .response s b → httpError s = true →
       2 ≤ countPosts (ClaudeClient.handle_tool_call true att name p).2) ∧
    (att 0 = .transportFail →
       2 ≤ countPosts (ClaudeClient.handle_tool_call true att name p).2) := by
  have hstep : (attemptLoop att name p 0 maxRetries).2
        = .toolCallPost name p :: .sleep 2 :: (attemptLoop att name p 1 2).2 →
      2 ≤ countPosts (ClaudeClient.handle_tool_call true att name p).2 := by
    intro h0
    have h1 := attemptLoop_posts_pos att name p 1 2 (by norm_num)
    simp only [ClaudeClient.handle_tool_call, if_true]
    rw [h0, countPosts_probe, countPosts_post, countPosts_sleep]
    omega
  refine ⟨?_, ?_, ?_⟩
  · intro h0 hs
    simp [ClaudeClient.handle_tool_call, attemptLoop, maxRetries, h0, hs]
  · intro h0 hs
    refine hstep ?_
    simp [attemptLoop, maxRetries, h0, hs]
  · intro h0
    refine hstep ?_
    simp [attemptLoop, maxRetries, h0]

/-- Claim C3, witness for the amended statement: a 200-status exchange
carrying an error body is returned at once without retry; a 404-status
exchange and a transport failure each lead to a second attempt. -/
theorem C3_retry_condition_witness :
    (ClaudeClient.handle_tool_call true
        (fun _ => .response 200 (.error "no query")) "fetch_web_content" ⟨some "y"⟩
      = (.error "no query",
         [.healthProbe, .toolCallPost "fetch_web_content" ⟨some "y"⟩])) ∧
    2 ≤ countPosts (ClaudeClient.handle_tool_call true
        (fun _ => .response 404 (.error "not found")) "fetch_web_content" ⟨some "y"⟩).2 ∧
    2 ≤ countPosts (ClaudeClient.handle_tool_call true
        (fun i => if i = 0 then .transportFail else .response 200 (.results []))
        "fetch_web_content" ⟨some "y"⟩).2 :=
  ⟨(C3_retry_condition (fun _ => .response 200 (.error "no query"))
      "fetch_web_content" ⟨some "y"⟩ 200 (.error "no query")).1 rfl rfl,
   (C3_retry_condition (fun _ => .response 404 (.error "not found"))
      "fetch_web_content" ⟨some "y"⟩ 404 (.error "not found")).2.1 rfl rfl,
   (C3_retry_condition (fun i => if i = 0 then .transportFail
        else .response 200 (.results []))
      "fetch_web_content" ⟨some "y"⟩ 0 (.error "unused")).2.2 rfl⟩

/-- Unfolding of `send_message` when the LLM call raises: the `except`
branch returns the `{"error": msg}` dict and nothing else happens. -/
theorem send_message_failure (apiKey : String) (oracle : Nat → ClaudeOutcome)
    (disp : String → Option String → ToolResponse) (fuel idx : Nat)
    (msg m : String) (hist : List Turn)
    (hk : apiKey ≠ "") (h : oracle idx = .failure m) :
    ClaudeClient.send_message apiKey oracle disp (fuel+1) idx msg hist
      = { result := some (.error m), calls := [],
          payloads := [hist ++ [⟨.user, msg⟩]] } := by
  rw [ClaudeClient.send_message]
  simp [hk, h]

/-- Unfolding of `send_message` when the response holds no `tool_use`
block: the response dict is returned as-is and the dispatcher is not
invoked. -/
theorem send_message_no_tool (apiKey : String) (oracle : Nat → ClaudeOutcome)
    (disp : String → Option String → ToolResponse) (fuel idx : Nat)
    (msg : String) (hist : List Turn) (blocks : List ContentBlock)
    (hk : apiKey ≠ "") (h1 : oracle idx = .success (some blocks))
    (h2 : firstToolUse blocks = none) :
    ClaudeClient.send_message apiKey oracle disp (fuel+1) idx msg hist
      = { result := some (.response (some blocks)), calls := [],
          payloads := [hist ++ [⟨.user, msg⟩]] } := by
  rw [ClaudeClient.send_message]
  simp [hk, h1, h2]

/-- Unfolding of `send_message` when the response's first `tool_use` block
is `(n, qv)`: that block alone is dispatched, the history is extended by
the restated user message and the synthetic assistant turn, and the
summarization recursion supplies the rest of the trace. -/
theorem send_message_tool_step (apiKey : String) (oracle : Nat → ClaudeOutcome)
    (disp : String → Option String → ToolResponse) (fuel idx : Nat)
    (msg : String) (hist : List Turn) (blocks : List ContentBlock)
    (n : String) (qv : Option String)
    (hk : apiKey ≠ "") (h1 : oracle idx = .success (some blocks))
    (h2 : firstToolUse blocks = some (n, qv)) :
    ClaudeClient.send_message apiKey oracle disp (fuel+1) idx msg hist
      = { result := (ClaudeClient.send_message apiKey oracle disp fuel (idx+1)
            summarizePrompt (hist ++ [⟨.user, msg⟩,
              ⟨.assistant, blockText (blocks.headD .other) ++ toolInfoSep
                ++ respDescription (disp n qv)⟩])).result,
          calls := (n, qv) :: (ClaudeClient.send_message apiKey oracle disp fuel (idx+1)
            summarizePrompt (hist ++ [⟨.user, msg⟩,
              ⟨.assistant, blockText (blocks.headD .other) ++ toolInfoSep
                ++ respDescription (disp n qv)⟩])).calls,
          payloads := (hist ++ [⟨.user, msg⟩])
            :: (ClaudeClient.send_message apiKey oracle disp fuel (idx+1)
            summarizePrompt (hist ++ [⟨.user, msg⟩,
              ⟨.assistant, blockText (blocks.headD .other) ++ toolInfoSep
                ++ respDescription (disp n qv)⟩])).payloads } := by
  rw [ClaudeClient.send_message]
  simp [hk, h1, h2]

/-- Claim C5, counterexample: when the final response has no text block
the source returns the sentinel `"No clear answer found"`, which differs
from the claimed sentinel `"no clear answer found."`. -/
theorem C5_counterexample :
    ClaudeClient.get_final_answer "k" (fun _ => .success (some [.other]))
        (fun _ _ => .results []) 1 "q" = some "No clear answer found" ∧
    "No clear answer found" ≠ "no clear answer found." := by
  exact ⟨rfl, by decide⟩

/-- Claim C5, amended: for every LLM response with no tool-use block,
`get_final_answer` returns the text of the first text-type content block
verbatim and the Tool Dispatcher is never invoked; when the response has
no text-type block at all it returns the sentinel
`"No clear answer found"` (the source's spelling). -/
theorem C5_no_tool_answer (oracle : Nat → ClaudeOutcome)
    (disp : String → Option String → ToolResponse) (fuel : Nat) (q : String)
    (blocks : List ContentBlock)
    (h1 : oracle 0 = .success (some blocks))
    (h2 : firstToolUse blocks = none) :
    (ClaudeClient.send_message "k" oracle disp (fuel+1) 0 q []).calls = [] ∧
    ClaudeClient.get_final_answer "k" oracle disp (fuel+1) q
      = some ((firstTextBlock blocks).getD "No clear answer found") := by
  have hsm := send_message_no_tool "k" oracle disp fuel 0 q [] blocks (by decide) h1 h2
  constructor
  · rw [hsm]
  · rw [ClaudeClient.get_final_answer, hsm]

/-- Claim C5, witness for the amended statement: the simulated response
with the single text block "Paris is the capital of France." is returned
verbatim with no dispatcher call. -/
theorem C5_no_tool_answer_witness :
    (ClaudeClient.send_message "k"
        (fun _ => .success (some [.text "Paris is the capital of France."]))
        (fun _ _ => .results []) 1 0 "capital of France" []).calls = [] ∧
    ClaudeClient.get_final_answer "k"
        (fun _ => .success (some [.text "Paris is the capital of France."]))
        (fun _ _ => .results []) 1 "capital of France"
      = some ((firstTextBlock [.text "Paris is the capital of France."]).getD
          "No clear answer found") :=
  C5_no_tool_answer (fun _ => .success (some [.text "Paris is the capital of France."]))
    (fun _ _ => .results []) 0 "capital of France"
    [.text "Paris is the capital of France."] rfl rfl

/-- Claim C7: for every LLM response containing tool-use blocks, only the
first one in content-block order is honored — the dispatcher is invoked
exactly once, with the query value of that block's input — and the answer
returned is the text of the forced follow-up turn's response. -/
theorem C7_first_tool_wins (oracle : Nat → ClaudeOutcome)
    (disp : String → Option String → ToolResponse) (fuel : Nat) (q : String)
    (blocks blocks2 : List ContentBlock) (n : String) (qv : Option String)
    (summary : String)
    (h1 : oracle 0 = .success (some blocks))
    (h2 : firstToolUse blocks = some (n, qv))
    (h3 : oracle 1 = .success (some blocks2))
    (h4 : firstToolUse blocks2 = none)
    (h5 : firstTextBlock blocks2 = some summary) :
    (ClaudeClient.send_message "k" oracle disp (fuel+1+1) 0 q []).calls = [(n, qv)] ∧
    ClaudeClient.get_final_answer "k" oracle disp (fuel+1+1) q = some summary := by
  have hstep := send_message_tool_step "k" oracle disp (fuel+1) 0 q [] blocks n qv
    (by decide) h1 h2
  have hrec := send_message_no_tool "k" oracle disp fuel 1 summarizePrompt
    ([] ++ [⟨.user, q⟩, ⟨.assistant, blockText (blocks.headD .other) ++ toolInfoSep
      ++ respDescription (disp n qv)⟩]) blocks2 (by decide) h3 h4
  constructor
  · rw [hstep, hrec]
  · rw [ClaudeClient.get_final_answer, hstep, hrec]
    simp [h5]

/-- Claim C7, witness: the simulated Eiffel Tower scenario — a tool-use
block requesting "Eiffel Tower height" followed on the forced summary
turn by the text block "The Eiffel Tower is 330 meters tall." — gives one
dispatcher call with that query and the summary text as the answer. -/
theorem C7_first_tool_wins_witness :
    (ClaudeClient.send_message "k"
        (fun i => if i = 0
          then .success (some [.toolUse "fetch_web_content" (some "Eiffel Tower height"),
                               .toolUse "other_tool" (some "ignored")])
          else .success (some [.text "The Eiffel Tower is 330 meters tall."]))
        (fun _ _ => .results [⟨"Eiffel Tower", "u", "330 m"⟩]) 2 0
        "How tall is the Eiffel Tower?" []).calls
      = [("fetch_web_content", some "Eiffel Tower height")] ∧
    ClaudeClient.get_final_answer "k"
        (fun i => if i = 0
          then .success (some [.toolUse "fetch_web_content" (some "Eiffel Tower height"),
                               .toolUse "other_tool" (some "ignored")])
          else .success (some [.text "The Eiffel Tower is 330 meters tall."]))
        (fun _ _ => .results [⟨"Eiffel Tower", "u", "330 m"⟩]) 2
        "How tall is the Eiffel Tower?"
      = some "The Eiffel Tower is 330 meters tall." :=
  C7_first_tool_wins
    (fun i => if i = 0
      then .success (some [.toolUse "fetch_web_content" (some "Eiffel Tower height"),
                           .toolUse "other_tool" (some "ignored")])
      else .success (some [.text "The Eiffel Tower is 330 meters tall."]))
    (fun _ _ => .results [⟨"Eiffel Tower", "u", "330 m"⟩]) 0
    "How tall is the Eiffel Tower?"
    [.toolUse "fetch_web_content" (some "Eiffel Tower height"),
     .toolUse "other_tool" (some "ignored")]
    [.text "The Eiffel Tower is 330 meters tall."]
    "fetch_web_content" (some "Eiffel Tower height")
    "The Eiffel Tower is 330 meters tall." rfl rfl rfl rfl rfl

/-- Claim C9: the orchestrator imposes no depth cap on tool round-trips —
against a model that answers every request, including each forced
summarization request, with a tool-use block, the recursion never
completes: for every step budget `fuel`, the execution has still not
returned (`result = none`) and has already performed `fuel` dispatcher
invocations, so no bound on the number of tool round-trips exists. -/
theorem C9_no_depth_cap (disp : String → Option String → ToolResponse)
    (fuel idx : Nat) (msg : String) (hist : List Turn) :
    (ClaudeClient.send_message "k" alwaysToolOracle disp fuel idx msg hist).result = none ∧
    (ClaudeClient.send_message "k" alwaysToolOracle disp fuel idx msg hist).calls.length
      = fuel := by
  induction fuel generalizing idx msg hist with
  | zero => exact ⟨rfl, rfl⟩
  | succ fuel ih =>
    have hstep := send_message_tool_step "k" alwaysToolOracle disp fuel idx msg hist
      [.toolUse "fetch_web_content" (some "Eiffel Tower height")]
      "fetch_web_content" (some "Eiffel Tower height") (by decide) rfl rfl
    rw [hstep]
    refine ⟨(ih (idx+1) summarizePrompt _).1, ?_⟩
    simp [(ih (idx+1) summarizePrompt _).2]

/-- Claim C10: when the LLM call itself fails (transport error or
non-success status), `send_message` returns the `{"error": msg}` dict —
a shape with no `content` key — so `get_final_answer` returns the
sentinel `"No clear answer found"`, exactly the answer produced by a
successful response that contains no text block: the two cases are
indistinguishable at the public interface. -/
theorem C10_error_indistinguishable (oracle oracle2 : Nat → ClaudeOutcome)
    (disp disp2 : String → Option String → ToolResponse) (fuel fuel2 : Nat)
    (q q2 m : String) (blocks2 : List ContentBlock)
    (h1 : oracle 0 = .failure m)
    (h2 : oracle2 0 = .success (some blocks2))
    (h3 : firstToolUse blocks2 = none)
    (h4 : firstTextBlock blocks2 = none) :
    (ClaudeClient.send_message "k" oracle disp (fuel+1) 0 q []).result
      = some (.error m) ∧
    ClaudeClient.get_final_answer "k" oracle disp (fuel+1) q
      = some "No clear answer found" ∧
    ClaudeClient.get_final_answer "k" oracle2 disp2 (fuel2+1) q2
      = ClaudeClient.get_final_answer "k" oracle disp (fuel+1) q := by
  have hf := send_message_failure "k" oracle disp fuel 0 q m [] (by decide) h1
  have hs := send_message_no_tool "k" oracle2 disp2 fuel2 0 q2 [] blocks2 (by decide) h2 h3
  refine ⟨by rw [hf], by rw [ClaudeClient.get_final_answer, hf], ?_⟩
  rw [ClaudeClient.get_final_answer, ClaudeClient.get_final_answer, hf, hs]
  simp [h4]

/-- Claim C10, witness: a concrete failed LLM call and a concrete
successful-but-textless response produce the same sentinel answer. -/
theorem C10_error_indistinguishable_witness :
    (ClaudeClient.send_message "k" (fun _ => .failure "connection timed out")
        (fun _ _ => .results []) 1 0 "any question" []).result
      = some (.error "connection timed out") ∧
    ClaudeClient.get_final_answer "k" (fun _ => .failure "connection timed out")
        (fun _ _ => .results []) 1 "any question"
      = some "No clear answer found" ∧
    ClaudeClient.get_final_answer "k" (fun _ => .success (some [.other]))
        (fun _ _ => .error "x") 1 "other question"
      = ClaudeClient.get_final_answer "k" (fun _ => .failure "connection timed out")
        (fun _ _ => .results []) 1 "any question" :=
  C10_error_indistinguishable (fun _ => .failure "connection timed out")
    (fun _ => .success (some [.other])) (fun _ _ => .results [])
    (fun _ _ => .error "x") 0 0 "any question" "other question"
    "connection timed out" [.other] rfl rfl rfl rfl

/-- Claim C6: a tool round-trip appends exactly one user turn carrying the
original query, immediately followed by exactly one assistant turn (model
leading text plus the injected tool-result description), before the forced
summarization request goes out — the second LLM request's messages are
exactly `[user query, assistant synthetic, user summarizePrompt]` — and
every messages list ever sent to the LLM alternates strictly between the
user and assistant roles. -/
theorem C6_history_round_trip (oracle : Nat → ClaudeOutcome)
    (disp : String → Option String → ToolResponse) (fuel : Nat) (q : String)
    (blocks : List ContentBlock) (n : String) (qv : Option String)
    (h1 : oracle 0 = .success (some blocks))
    (h2 : firstToolUse blocks = some (n, qv)) :
    (∃ s : String,
      (ClaudeClient.send_message "k" oracle disp (fuel+1+1) 0 q []).payloads.take 2
        = [[⟨.user, q⟩], [⟨.user, q⟩, ⟨.assistant, s⟩, ⟨.user, summarizePrompt⟩]]) ∧
    ∀ p ∈ (ClaudeClient.send_message "k" oracle disp (fuel+1+1) 0 q []).payloads,
      altRoles .user p = true := by
  constructor
  · refine ⟨blockText (blocks.headD .other) ++ toolInfoSep ++ respDescription (disp n qv), ?_⟩
    have hstep := send_message_tool_step "k" oracle disp (fuel+1) 0 q [] blocks n qv
      (by decide) h1 h2
    rw [hstep]
    have hh := send_message_payloads_head "k" oracle disp fuel 1 summarizePrompt
      ([] ++ [⟨.user, q⟩, ⟨.assistant, blockText (blocks.headD .other) ++ toolInfoSep
        ++ respDescription (disp n qv)⟩]) (by decide)
    cases hr : (ClaudeClient.send_message "k" oracle disp (fuel+1) 1 summarizePrompt
        ([] ++ [⟨.user, q⟩, ⟨.assistant, blockText (blocks.headD .other) ++ toolInfoSep
          ++ respDescription (disp n qv)⟩])).payloads with
    | nil =>
      rw [hr] at hh
      simp at hh
    | cons x xs =>
      rw [hr] at hh
      simp only [List.head?_cons, Option.some_inj] at hh
      simp [hr, hh]
  · exact send_message_payloads_alternate "k" oracle disp (fuel+1+1) 0 q []
      rfl rfl

/-- Claim C6, witness: the concrete round-trip whose first response asks
for the web-content tool and whose forced summary turn answers in text. -/
theorem C6_history_round_trip_witness :
    (∃ s : String,
      (ClaudeClient.send_message "k"
          (fun i => if i = 0
            then .success (some [.text "Let me look that up.",
                                 .toolUse "fetch_web_content" (some "Eiffel Tower height")])
            else .success (some [.text "It is 330 meters."]))
          (fun _ _ => .results [⟨"Eiffel Tower", "u", "330 m"⟩]) 2 0
          "How tall is the Eiffel Tower?" []).payloads.take 2
        = [[⟨.user, "How tall is the Eiffel Tower?"⟩],
           [⟨.user, "How tall is the Eiffel Tower?"⟩, ⟨.assistant, s⟩,
            ⟨.user, summarizePrompt⟩]]) ∧
    ∀ p ∈ (ClaudeClient.send_message "k"
        (fun i => if i = 0
          then .success (some [.text "Let me look that up.",
                               .toolUse "fetch_web_content" (some "Eiffel Tower height")])
          else .success (some [.text "It is 330 meters."]))
        (fun _ _ => .results [⟨"Eiffel Tower", "u", "330 m"⟩]) 2 0
        "How tall is the Eiffel Tower?" []).payloads,
      altRoles .user p = true :=
  C6_history_round_trip
    (fun i => if i = 0
      then .success (some [.text "Let me look that up.",
                           .toolUse "fetch_web_content" (some "Eiffel Tower height")])
      else .success (some [.text "It is 330 meters."]))
    (fun _ _ => .results [⟨"Eiffel Tower", "u", "330 m"⟩]) 0
    "How tall is the Eiffel Tower?"
    [.text "Let me look that up.",
     .toolUse "fetch_web_content" (some "Eiffel Tower height")]
    "fetch_web_content" (some "Eiffel Tower height") rfl rfl

/-- Claim C8, counterexample: with the credential present but the MCP
health probe failing, `main` still invokes the orchestrator — the probe
performed by the `ClaudeClient` constructor has its boolean result
discarded, and the module-level `check_mcp_server` of ask_claude.py is
never called by `main` — refuting "the orchestrator is not invoked when
either check fails". -/
theorem C8_counterexample :
    AskClaude.main "k" false (fun _ => .failure "connection refused")
        (fun _ _ => .results []) 1 "capital of France"
      = (.ranOrchestrator (some "No clear answer found"),
         [.healthProbe false, .orchestratorCall "capital of France"]) ∧
    FrontEvent.orchestratorCall "capital of France" ∈
      (AskClaude.main "k" false (fun _ => .failure "connection refused")
        (fun _ _ => .results []) 1 "capital of France").2 := by
  exact ⟨rfl, by decide⟩

/-- Claim C8, amended: the Front End checks only the credential — when it
is absent `main` exits with an error and the orchestrator is not invoked;
when it is present, a health probe against the backing service is
performed but its result is ignored, and the orchestrator is invoked
regardless of the service's reachability. -/
theorem C8_front_end_checks (apiKey : String) (healthy : Bool)
    (oracle : Nat → ClaudeOutcome) (disp : String → Option String → ToolResponse)
    (fuel : Nat) (q : String) :
    (apiKey = "" → AskClaude.main apiKey healthy oracle disp fuel q = (.exitError, [])) ∧
    (apiKey ≠ "" →
      (AskClaude.main apiKey healthy oracle disp fuel q).2
        = [.healthProbe healthy, .orchestratorCall q] ∧
      (AskClaude.main apiKey healthy oracle disp fuel q).1
        = .ranOrchestrator (ClaudeClient.get_final_answer apiKey oracle disp fuel q)) := by
  constructor <;> intro h <;> simp [AskClaude.main, h]

/-- Claim C8, witness for the amended statement: a missing credential
exits without any event; a present credential with an unreachable service
still records the orchestrator call. -/
theorem C8_front_end_checks_witness :
    AskClaude.main "" true (fun _ => .failure "x") (fun _ _ => .results []) 1 "q"
      = (.exitError, []) ∧
    (AskClaude.main "key" false (fun _ => .failure "x")
        (fun _ _ => .results []) 1 "q").2
      = [.healthProbe false, .orchestratorCall "q"] :=
  ⟨(C8_front_end_checks "" true (fun _ => .failure "x") (fun _ _ => .results []) 1 "q").1
      rfl,
   ((C8_front_end_checks "key" false (fun _ => .failure "x")
        (fun _ _ => .results []) 1 "q").2 (by decide)).1⟩

/-- The modelled composite dispatch agrees with the in-source client loop
run against a transport that always completes with status 200 carrying the
handler's response as body. -/
theorem fullDispatch_result_agrees (healthy : Bool) (searchOut : HTTPOutcome DDGBody)
    (name : String) (p : ToolParams) :
    (fullDispatch healthy searchOut name p).1
      = (ClaudeClient.handle_tool_call healthy
          (fun _ => .response 200 (handle_claude_tool_call searchOut p).1) name p).1 := by
  cases healthy <;>
    simp [fullDispatch, ClaudeClient.handle_tool_call, attemptLoop, maxRetries, httpError]
